import Mathlib

/-!
Verification of `scripts/ddg_search.py`: a script that runs one DuckDuckGo
text search, normalizes the returned records, and prints a JSON payload.

The external search library (`DDGS`) is modelled as an opaque capability:
a function from the query string and the `max_results` integer to a
behavior, namely the finite sequence of records it emits followed by an
optional fault.  A fault with `k` records emitted models an exception
raised during session acquisition or iteration after `k` loop bodies ran;
the fault carries its textual description (Python's `str(e)`, which may be
the empty string, e.g. `str(Exception())`).

Upstream records are loosely-typed dicts; the three fields the script
reads (`title`, `href`, `body`) are modelled as optional strings, `none`
standing for an absent key, so that `r.get(key, '')` becomes `Option.getD`.
-/

namespace DdgSearch

/-- One upstream record, as read by the script: the three dict keys it
accesses, each possibly absent. -/
structure Record where
  title : Option String
  href : Option String
  body : Option String
deriving DecidableEq, Repr

/-- The observable behavior of one call into the external search
capability: the records it emits in order, then an optional fault whose
payload is the fault's textual description (`str(e)`). -/
structure CapBehavior where
  emitted : List Record
  fault : Option String
deriving DecidableEq, Repr

/-- The external search capability: `ddgs.text(query, max_results=n)`
abstracted as a function of the query and the cap. -/
def Cap : Type := String → Int → CapBehavior

/-- One normalized result dict built by the loop body (lines 17-22 of the
script): `title`/`url`/`description` read with empty-string fallback, plus
the fixed `source` tag. -/
structure SearchResult where
  title : String
  url : String
  description : String
  source : String
deriving DecidableEq, Repr

/-- The response dict returned by `search`.  `count` is present only in
the success dict, `error` only in the failure dict; an absent key is
`none`. -/
structure SearchResponse where
  success : Bool
  query : String
  results : List SearchResult
  count : Option Nat
  error : Option String
deriving DecidableEq, Repr

/-- Loop body of `search`:
`{'title': r.get('title',''), 'url': r.get('href',''),
  'description': r.get('body',''), 'source': 'ddg-python'}`. -/
def mkSearchResult (r : Record) : SearchResult :=
  { title := r.title.getD ""
    url := r.href.getD ""
    description := r.body.getD ""
    source := "ddg-python" }

/-- The `search` function of the script.  On a fault anywhere inside the
`try` block the `except` clause returns the failure dict, discarding any
results accumulated before the fault; otherwise every emitted record is
mapped and the success dict is returned with `count = len(results)`. -/
def search (cap : Cap) (query : String) (max_results : Int := 20) : SearchResponse :=
  let b := cap query max_results
  match b.fault with
  | some e =>
      { success := false, query := query, results := [], count := none, error := some e }
  | none =>
      let results := b.emitted.map mkSearchResult
      { success := true, query := query, results := results,
        count := some results.length, error := none }

/-- Lowercase hex digit, as used by `json.dumps` for control characters. -/
def hexDigit (n : Nat) : Char :=
  if n < 10 then Char.ofNat (48 + n) else Char.ofNat (87 + n)

/-- Escape of one character inside a JSON string, following `json.dumps`
with `ensure_ascii=False`: only `"`, `\` and control characters below
U+0020 are escaped, everything else is emitted literally. -/
def escapeJsonChar (c : Char) : String :=
  if c = '"' then "\\\""
  else if c = '\\' then "\\\\"
  else if c = '\n' then "\\n"
  else if c = '\t' then "\\t"
  else if c = '\r' then "\\r"
  else if c = '\x08' then "\\b"
  else if c = '\x0c' then "\\f"
  else if c.toNat < 32 then
    "\\u00" ++ String.mk [hexDigit (c.toNat / 16), hexDigit (c.toNat % 16)]
  else String.singleton c

/-- JSON string literal for `s`, per `json.dumps(..., ensure_ascii=False)`. -/
def jsonQuote (s : String) : String :=
  "\"" ++ String.join (s.toList.map escapeJsonChar) ++ "\""

/-- Serialization of one result dict, with `json.dumps` default
separators (`", "` and `": "`) and the insertion order of the keys. -/
def searchResultToJson (r : SearchResult) : String :=
  "\x7b\"title\": " ++ jsonQuote r.title ++
  ", \"url\": " ++ jsonQuote r.url ++
  ", \"description\": " ++ jsonQuote r.description ++
  ", \"source\": " ++ jsonQuote r.source ++ "\x7d"

/-- Serialization of the response dict: the success dict has keys
`success, query, results, count` in insertion order, the failure dict has
`success, error, query, results`. -/
def searchResponseToJson (resp : SearchResponse) : String :=
  if resp.success then
    "\x7b\"success\": true, \"query\": " ++ jsonQuote resp.query ++
    ", \"results\": [" ++ ", ".intercalate (resp.results.map searchResultToJson) ++
    "], \"count\": " ++ toString (resp.count.getD 0) ++ "\x7d"
  else
    "\x7b\"success\": false, \"error\": " ++ jsonQuote (resp.error.getD "") ++
    ", \"query\": " ++ jsonQuote resp.query ++
    ", \"results\": [" ++ ", ".intercalate (resp.results.map searchResultToJson) ++
    "]\x7d"

/-- `json.dumps({'error': 'No query provided'})`, the payload printed when
no query argument is given. -/
def noQueryOutput : String :=
  "\x7b" ++ jsonQuote "error" ++ ": " ++ jsonQuote "No query provided" ++ "\x7d"

/-- Whitespace stripped by Python's `int()` around a numeral. -/
def isPySpace (c : Char) : Bool :=
  c = ' ' || c = '\t' || c = '\n' || c = '\r' || c = '\x0b' || c = '\x0c'

/-- Digits of a Python integer literal after the first digit: decimal
digits with single underscores allowed only between digits. -/
def parsePyDigitsCore : List Char → Nat → Option Nat
  | [], acc => some acc
  | '_' :: c :: cs, acc =>
      if c.isDigit then parsePyDigitsCore cs (acc * 10 + (c.toNat - 48)) else none
  | ['_'], _ => none
  | c :: cs, acc =>
      if c.isDigit then parsePyDigitsCore cs (acc * 10 + (c.toNat - 48)) else none

/-- A nonempty run of decimal digits (with interior underscores), which
must start with a digit. -/
def parsePyDigits : List Char → Option Nat
  | [] => none
  | c :: cs => if c.isDigit then parsePyDigitsCore cs (c.toNat - 48) else none

/-- Python's `int(s)` on a decimal string: strip surrounding whitespace,
allow one optional sign, then require a valid digit run.  `none` models a
raised `ValueError`. -/
def pythonInt (s : String) : Option Int :=
  let cs := (s.toList.dropWhile isPySpace).reverse.dropWhile isPySpace |>.reverse
  match cs with
  | '+' :: rest => (parsePyDigits rest).map Int.ofNat
  | '-' :: rest => (parsePyDigits rest).map (fun n => -(Int.ofNat n))
  | rest => (parsePyDigits rest).map Int.ofNat

/-- Outcome of a process run that terminated normally: the line printed to
standard output and the exit code. -/
structure ProcResult where
  stdout : String
  exitCode : Nat
deriving DecidableEq, Repr

/-- The `__main__` block.  `args` is `sys.argv[1:]` (the arguments after
the program name).  `none` models the process dying on an uncaught
exception (the `int(sys.argv[2])` `ValueError`) before printing any JSON. -/
def main (cap : Cap) (args : List String) : Option ProcResult :=
  match args with
  | [] => some { stdout := noQueryOutput, exitCode := 1 }
  | query :: rest =>
      let maxResults? : Option Int :=
        match rest with
        | [] => some 20
        | m :: _ => pythonInt m
      match maxResults? with
      | none => none
      | some mr =>
          some { stdout := searchResponseToJson (search cap query mr), exitCode := 0 }

/-- A capability that emits one fully-populated record and never faults;
used to instantiate universally quantified theorems at a concrete input. -/
def capOne : Cap := fun _ _ =>
  { emitted := [{ title := some "Example", href := some "https://example.com", body := some "An example." }]
    fault := none }

/-- A capability that emits two records, the second missing every field,
and never faults. -/
def capTwo : Cap := fun _ _ =>
  { emitted := [{ title := some "A", href := some "https://a", body := some "a" },
                { title := none, href := none, body := none }]
    fault := none }

/-- A capability that raises a fault whose textual description is empty,
as `str(Exception())` is in Python. -/
def capEmptyFault : Cap := fun _ _ => { emitted := [], fault := some "" }

/-- A capability that emits one record and then faults with message
"timeout". -/
def capLateFault : Cap := fun _ _ =>
  { emitted := [{ title := some "A", href := some "https://a", body := some "a" }]
    fault := some "timeout" }

/-- C1: for every non-empty query and positive cap `n`, if the capability
yields `k ≤ n` records without a fault, `search` returns `success = true`,
the input query, `count = k`, and a `results` list of length `k` that maps
the emitted records in emission order. -/
theorem C1_search_success (cap : Cap) (query : String) (n : Int) (k : Nat)
    (hq : query ≠ "") (hn : 0 < n)
    (hfault : (cap query n).fault = none)
    (hk : (cap query n).emitted.length = k) (hkn : (k : Int) ≤ n) :
    (search cap query n).success = true ∧
    (search cap query n).query = query ∧
    (search cap query n).count = some k ∧
    (search cap query n).results.length = k ∧
    (search cap query n).results = (cap query n).emitted.map mkSearchResult := by
  simp only [search, hfault]
  simp [List.length_map, hk]

/-- C1 witness: a concrete run with one record under cap 5. -/
theorem C1_search_success_witness :
    (search capOne "test" 5).success = true ∧
    (search capOne "test" 5).query = "test" ∧
    (search capOne "test" 5).count = some 1 ∧
    (search capOne "test" 5).results.length = 1 ∧
    (search capOne "test" 5).results = (capOne "test" 5).emitted.map mkSearchResult :=
  C1_search_success capOne "test" 5 1 (by decide) (by decide) rfl rfl (by decide)

/-- C2 counterexample: a fault whose textual description is empty (as
`str(Exception())` is in Python) yields `error = some ""`, so the error
field is present but is not a non-empty string, refuting the claim as
stated. -/
theorem C2_error_nonempty_cex :
    (search capEmptyFault "q" 5).success = false ∧
    (search capEmptyFault "q" 5).error = some "" ∧
    ¬ (∃ s, (search capEmptyFault "q" 5).error = some s ∧ s ≠ "") := by
  refine ⟨rfl, rfl, ?_⟩
  rintro ⟨s, hs, hne⟩
  have h0 : (search capEmptyFault "q" 5).error = some "" := rfl
  rw [h0] at hs
  exact hne (Option.some_injective _ hs.symm)

/-- C2 amended: if the capability faults at any point, `search` returns
`success = false`, the original query, empty results (anything iterated
before the fault is discarded), no count, and `error` equal to the fault's
textual description (which is empty exactly when that description is). -/
theorem C2_search_failure (cap : Cap) (query : String) (n : Int) (msg : String)
    (hfault : (cap query n).fault = some msg) :
    search cap query n =
      { success := false, query := query, results := [], count := none, error := some msg } := by
  simp only [search, hfault]

/-- C2 witness: a fault with message "timeout" after one emitted record. -/
theorem C2_search_failure_witness :
    search capLateFault "test" 5 =
      { success := false, query := "test", results := [], count := none,
        error := some "timeout" } :=
  C2_search_failure capLateFault "test" 5 "timeout" rfl

/-- C3: every result in a response produced by `search` comes from one
emitted record via `mkSearchResult` — so its four fields are present
strings, absent upstream fields defaulting to `""` — and its `source`
field is the fixed tag "ddg-python". -/
theorem C3_result_fields (cap : Cap) (query : String) (n : Int) (r : SearchResult)
    (hr : r ∈ (search cap query n).results) :
    r.source = "ddg-python" ∧ ∃ rec ∈ (cap query n).emitted, r = mkSearchResult rec := by
  simp only [search] at hr
  rcases hf : (cap query n).fault with _ | e
  · rw [hf] at hr
    simp only [List.mem_map] at hr
    rcases hr with ⟨rec, hrec, hmk⟩
    exact ⟨by rw [← hmk]; rfl, rec, hrec, hmk.symm⟩
  · rw [hf] at hr
    simp at hr

/-- C3 witness: the second result of a concrete run, whose upstream
record lacks every field. -/
theorem C3_result_fields_witness :
    (mkSearchResult { title := none, href := none, body := none }).source = "ddg-python" ∧
    ∃ rec ∈ (capTwo "test" 5).emitted,
      mkSearchResult { title := none, href := none, body := none } = mkSearchResult rec :=
  C3_result_fields capTwo "test" 5 (mkSearchResult { title := none, href := none, body := none })
    (by decide)

/-- C4: in every response, `count` is present iff `success` is true,
`error` is present iff `success` is false, and exactly one of the two
fields is present. -/
theorem C4_response_variants (cap : Cap) (query : String) (n : Int) :
    ((search cap query n).count.isSome ↔ (search cap query n).success = true) ∧
    ((search cap query n).error.isSome ↔ (search cap query n).success = false) ∧
    (search cap query n).count.isSome = !(search cap query n).error.isSome := by
  simp only [search]
  rcases (cap query n).fault with _ | e <;> simp

/-- C5: the `query` field of the response equals the input query, on both
the success and the failure path. -/
theorem C5_query_echoed (cap : Cap) (query : String) (n : Int) :
    (search cap query n).query = query := by
  simp only [search]
  rcases (cap query n).fault with _ | e <;> rfl

/-- C6: with zero command-line arguments the process prints exactly the
JSON object `\x7b"error": "No query provided"\x7d` and exits with code 1;
the capability is never consulted (no search logic runs), so this holds
for every capability. -/
theorem C6_no_query (cap : Cap) :
    main cap [] =
      some { stdout := "\x7b\"error\": \"No query provided\"\x7d", exitCode := 1 } :=
  rfl

/-- C7: whenever the process terminates normally it exits with code 0 or
1, and code 1 occurs exactly in the missing-query case (empty argument
list); every run that reaches the normal return path of `search` exits 0
regardless of the `success` field in the payload. -/
theorem C7_exit_codes (cap : Cap) (args : List String) (r : ProcResult)
    (h : main cap args = some r) :
    (r.exitCode = 0 ∨ r.exitCode = 1) ∧ (r.exitCode = 1 ↔ args = []) := by
  rcases args with _ | ⟨q, rest⟩
  · simp only [main] at h
    injection h with h'
    subst h'
    simp
  · simp only [main] at h
    rcases hmr : (match rest with | [] => some (20 : Int) | m :: _ => pythonInt m) with _ | mr
    · rw [hmr] at h
      simp at h
    · rw [hmr] at h
      injection h with h'
      subst h'
      simp

/-- C7 witness: a concrete failing search still exits 0. -/
theorem C7_exit_codes_witness :
    (((main capEmptyFault ["test"]).getD ⟨"", 7⟩).exitCode = 0 ∨
      ((main capEmptyFault ["test"]).getD ⟨"", 7⟩).exitCode = 1) ∧
    (((main capEmptyFault ["test"]).getD ⟨"", 7⟩).exitCode = 1 ↔ (["test"] : List String) = []) :=
  C7_exit_codes capEmptyFault ["test"] ((main capEmptyFault ["test"]).getD ⟨"", 7⟩) rfl

/-- C8: one argument runs the search with the default cap 20; a second
argument that parses as an integer runs it with that value as the cap. -/
theorem C8_max_results (cap : Cap) (query : String) :
    main cap [query] =
      some { stdout := searchResponseToJson (search cap query 20), exitCode := 0 } ∧
    ∀ s m, pythonInt s = some m →
      main cap [query, s] =
        some { stdout := searchResponseToJson (search cap query m), exitCode := 0 } := by
  refine ⟨rfl, fun s m hs => ?_⟩
  simp only [main, hs]

/-- C8 witness: one argument uses cap 20; second argument "7" uses cap 7. -/
theorem C8_max_results_witness :
    (main capOne ["test"] =
      some { stdout := searchResponseToJson (search capOne "test" 20), exitCode := 0 }) ∧
    (main capOne ["test", "7"] =
      some { stdout := searchResponseToJson (search capOne "test" 7), exitCode := 0 }) :=
  ⟨(C8_max_results capOne "test").1, (C8_max_results capOne "test").2 "7" 7 rfl⟩

/-- C9: the integer parse of the second argument is partial — on the
invocation `["test", "abc"]` the conversion fails (`ValueError`), the
process dies before `search` is called and prints no JSON, whatever the
capability would have done. -/
theorem C9_int_parse_partial (cap : Cap) :
    pythonInt "abc" = none ∧ main cap ["test", "abc"] = none :=
  ⟨rfl, rfl⟩

/-- C10: `search` is deterministic in the capability's observable
behavior — two capabilities that respond identically to the given query
and cap yield identical responses; the output depends on nothing else. -/
theorem C10_deterministic (cap₁ cap₂ : Cap) (query : String) (n : Int)
    (h : cap₁ query n = cap₂ query n) :
    search cap₁ query n = search cap₂ query n := by
  simp only [search, h]

/-- C10 witness: two syntactically different capabilities with the same
behavior at the call point give the same response. -/
theorem C10_deterministic_witness :
    search (fun q n => capOne q n) "test" 5 = search capOne "test" 5 :=
  C10_deterministic (fun q n => capOne q n) capOne "test" 5 rfl

end DdgSearch
